import Mathlib

/-!
Verification of the screenshot-api capture pipeline.

The development shallowly embeds the TypeScript sources:
* `RequestQueue` (src/unnamed/part_004 lines 17-78, identical in part_003,
  part_005, part_006) as an explicit state machine;
* the `POST` route handler of src/unnamed/part_004 as a function from the
  request body and an oracle describing the browser/network environment to a
  trace of observable effects plus an HTTP response;
* the selector-capture block of src/unnamed/part_003 (puppeteer variant);
* the pure DOM scripts (consent-overlay removal, element isolation).
-/

namespace ScreenshotApi

/-! ## Admission queue: `class RequestQueue` (part_004 lines 17-78)

State fields mirror the four private members of the class.  `running` records
the tasks that have executed `this.currentRequests++` but not yet the matching
decrement (i.e. tasks currently holding a browser session); `nextId` supplies
fresh task identifiers in submission order. -/

structure QueueState where
  queue : List Nat
  processing : Bool
  maxConcurrent : Nat
  currentRequests : Nat
  running : List Nat
  nextId : Nat
  deriving DecidableEq, Repr

/-- Constructor `new RequestQueue(maxConcurrent = 5)`. -/
def QueueState.init (maxConcurrent : Nat := 5) : QueueState :=
  { queue := [], processing := false, maxConcurrent := maxConcurrent,
    currentRequests := 0, running := [], nextId := 0 }

/-- Method `processNext()` (part_004 lines 60-77): returns unchanged when
`this.processing`, the queue is empty, or `currentRequests >= maxConcurrent`;
otherwise sets `processing`, shifts the front task and starts it (the started
task synchronously runs `this.currentRequests++`). -/
def processNext (s : QueueState) : QueueState :=
  if s.processing ∨ s.queue = [] ∨ s.currentRequests ≥ s.maxConcurrent then
    s
  else
    match s.queue with
    | [] => s
    | t :: rest =>
      { s with processing := true, queue := rest,
               currentRequests := s.currentRequests + 1,
               running := s.running ++ [t] }

/-- Completion of a running task `t` (settled `fn`): the task's `finally`
block runs `this.currentRequests--` and `this.processNext()`, then the
`.finally` attached to the dispatched task promise clears `processing` and
calls `processNext()` again (part_004 lines 47-51 and 72-75). -/
def finishTask (s : QueueState) (t : Nat) : QueueState :=
  let s1 := { s with currentRequests := s.currentRequests - 1,
                     running := s.running.erase t }
  let s2 := processNext s1
  let s3 := { s2 with processing := false }
  processNext s3

/-- External events driving the queue: an incoming `enqueue` call, or the
settlement of an executing task's `fn()` promise. -/
inductive QueueEvent where
  | submit : QueueEvent
  | finish (t : Nat) : QueueEvent
  deriving DecidableEq, Repr

/-- One event-loop turn of the queue.  `submit` is `enqueue` (part_004 lines
37-57): push the task, then `processNext()`.  `finish t` is the completion of
a running task. -/
def queueStep (s : QueueState) : QueueEvent → QueueState
  | .submit =>
      processNext { s with queue := s.queue ++ [s.nextId], nextId := s.nextId + 1 }
  | .finish t => if t ∈ s.running then finishTask s t else s

/-- The queue state after a sequence of events starting from
`new RequestQueue(k)`. -/
def queueRun (k : Nat) (evs : List QueueEvent) : QueueState :=
  evs.foldl queueStep (QueueState.init k)

/-- Invariant carried through every reachable state. -/
def QueueInv (s : QueueState) : Prop :=
  s.currentRequests ≤ s.maxConcurrent

theorem processNext_maxConcurrent (s : QueueState) :
    (processNext s).maxConcurrent = s.maxConcurrent := by
  unfold processNext
  split
  · rfl
  · split <;> rfl

theorem queueInv_processNext {s : QueueState} (h : QueueInv s) :
    QueueInv (processNext s) := by
  unfold QueueInv processNext at *
  split
  · exact h
  · rename_i hcond
    push_neg at hcond
    split
    · exact h
    · exact hcond.2.2

theorem queueInv_finishTask {s : QueueState} (h : QueueInv s) (t : Nat) :
    QueueInv (finishTask s t) := by
  unfold finishTask
  apply queueInv_processNext
  have h1 : QueueInv ({ s with currentRequests := s.currentRequests - 1, running := s.running.erase t } : QueueState) := by
    simp only [QueueInv] at h ⊢
    omega
  have h2 := queueInv_processNext h1
  simpa only [QueueInv] using h2

theorem queueInv_step {s : QueueState} (h : QueueInv s) (e : QueueEvent) :
    QueueInv (queueStep s e) := by
  cases e with
  | submit =>
      apply queueInv_processNext
      simpa only [QueueInv] using h
  | finish t =>
      simp only [queueStep]
      split
      · exact queueInv_finishTask h t
      · exact h

theorem queueInv_foldl : ∀ (evs : List QueueEvent) (s : QueueState),
    QueueInv s → QueueInv (evs.foldl queueStep s)
  | [], _, h => h
  | e :: rest, s, h => queueInv_foldl rest (queueStep s e) (queueInv_step h e)

theorem finishTask_maxConcurrent (s : QueueState) (t : Nat) :
    (finishTask s t).maxConcurrent = s.maxConcurrent := by
  unfold finishTask
  simp only [processNext_maxConcurrent]

theorem queueStep_maxConcurrent (s : QueueState) (e : QueueEvent) :
    (queueStep s e).maxConcurrent = s.maxConcurrent := by
  cases e with
  | submit => simp only [queueStep, processNext_maxConcurrent]
  | finish t =>
      simp only [queueStep]
      split
      · simp only [finishTask_maxConcurrent]
      · rfl

theorem queueFoldl_maxConcurrent : ∀ (evs : List QueueEvent) (s : QueueState),
    (evs.foldl queueStep s).maxConcurrent = s.maxConcurrent
  | [], _ => rfl
  | e :: rest, s => by
      rw [List.foldl_cons, queueFoldl_maxConcurrent rest (queueStep s e),
        queueStep_maxConcurrent]

/-- Claim C1. For every event sequence applied to a queue constructed with
`maxConcurrent = k`, the number of tasks between their increment and decrement
of the active counter (tasks holding an open browser session) never exceeds
`k`. -/
theorem admission_queue_concurrency_bound (k : Nat) (evs : List QueueEvent) :
    (queueRun k evs).currentRequests ≤ k := by
  have h : QueueInv (queueRun k evs) := by
    apply queueInv_foldl
    simp [QueueInv, QueueState.init]
  have hmax : (queueRun k evs).maxConcurrent = k := by
    unfold queueRun
    rw [queueFoldl_maxConcurrent]
    rfl
  simp only [QueueInv] at h
  omega

/-- Claim C2, counterexample. The claim asserts a dispatch is performed
whenever the pending queue is non-empty and the active count is strictly
below `maxConcurrent`.  After two `enqueue` calls on a fresh queue with
`maxConcurrent = 5`, the second task is still pending (queue `[1]`, not
running) although only one request is active (`1 < 5`): the `processing`
flag, set when task `0` was dispatched and held until task `0` completes,
blocks the dispatch. -/
theorem dispatch_not_whenever_capacity :
    (queueRun 5 [.submit, .submit]).queue = [1] ∧
    (queueRun 5 [.submit, .submit]).currentRequests = 1 ∧
    (queueRun 5 [.submit, .submit]).currentRequests <
      (queueRun 5 [.submit, .submit]).maxConcurrent ∧
    1 ∉ (queueRun 5 [.submit, .submit]).running := by
  decide

/-- State of the queue immediately after a completing task's decrement and the
clearing of the `processing` flag, just before the retried dispatch
(part_004 lines 47-51 and 72-74). -/
def afterCompletion (s : QueueState) (t : Nat) : QueueState :=
  { s with currentRequests := s.currentRequests - 1, running := s.running.erase t, processing := false }

/-- Claim C2, amended. Dispatch removes exactly the front task and is performed
whenever the pending queue is non-empty, the active count is strictly below
`maxConcurrent`, **and** the `processing` flag is clear; the flag is set at
dispatch and cleared only when the dispatched task completes, so at most one
task executes at a time.  On completion the active count decrements and
dispatch is retried from the resulting state. -/
theorem dispatch_front_when_idle (s : QueueState) (t : Nat) (rest : List Nat)
    (hp : s.processing = false) (hq : s.queue = t :: rest)
    (hc : s.currentRequests < s.maxConcurrent) :
    ((processNext s).queue = rest ∧
     (processNext s).processing = true ∧
     (processNext s).currentRequests = s.currentRequests + 1 ∧
     (processNext s).running = s.running ++ [t]) ∧
    (∀ s' : QueueState, s'.processing = true → processNext s' = s') ∧
    (∀ s' : QueueState, s'.processing = true →
      finishTask s' t = processNext (afterCompletion s' t)) := by
  refine ⟨?_, ?_, ?_⟩
  · unfold processNext
    rw [hq]
    simp [hp, Nat.not_le.mpr hc]
  · intro s' hps
    unfold processNext
    simp [hps]
  · intro s' hps
    unfold finishTask afterCompletion
    have hinner : processNext ({ s' with currentRequests := s'.currentRequests - 1, running := s'.running.erase t } : QueueState) = ({ s' with currentRequests := s'.currentRequests - 1, running := s'.running.erase t } : QueueState) := by
      unfold processNext
      simp [hps]
    dsimp only
    rw [hinner]

/-- Witness for `dispatch_front_when_idle`: from an idle queue with one
pending task and spare capacity, dispatch starts exactly that task. -/
theorem dispatch_front_when_idle_witness :
    (processNext ⟨[7], false, 5, 0, [], 8⟩).queue = [] ∧
    (processNext ⟨[7], false, 5, 0, [], 8⟩).currentRequests = 0 + 1 :=
  ⟨(dispatch_front_when_idle ⟨[7], false, 5, 0, [], 8⟩ 7 [] rfl rfl (by decide)).1.1,
   (dispatch_front_when_idle ⟨[7], false, 5, 0, [], 8⟩ 7 [] rfl rfl (by decide)).1.2.2.1⟩

/-! ## The `POST` handler of src/unnamed/part_004

The handler is embedded as a function from the parsed request body and an
oracle `World` describing the external environment (configuration, browser
and network behaviour, page content) to a `Trace` of observable effects and
the HTTP response.  Each `await`ed operation of the source is an `Op`; the
oracle fixes whether it resolves or rejects, and during which operation (if
any) the 120-second timer of part_004 lines 90-96 fires. -/

namespace Part004

/-- Resolution of one awaited operation in the absence of the deadline. -/
inductive OpOutcome where
  | ok
  | fails
  deriving DecidableEq, Repr

/-- The awaited operations of the handler, in program order:
`request.json()` (line 131), `chromium.launch` (152), `browser.newPage`
(157), `page.setViewportSize` (164), `page.goto` (169),
`page.waitForTimeout` (178), the consent-removal `page.evaluate` (182),
`clickLocator.count()` (195), `clickLocator.waitFor` (200), the
initial-state `page.evaluate` (206), `clickLocator.click` attempt `n` (215),
the retry `page.waitForTimeout(1000)` after attempt `n` (224),
`page.waitForLoadState` on a newly opened page (238), the settling
`Promise.race` (247), `locator.waitFor` (282), `scrollIntoViewIfNeeded`
(285), the hide `page.evaluate` (289), `locator.screenshot` (340), the
element `pngquant` stream (348), the restore `page.evaluate` (364),
`locator.count()` in the catch (375), `page.screenshot` (387), the full-page
`pngquant` stream (394), and `s3Client.send` (429). -/
inductive Op where
  | parseBody
  | launch
  | newPage
  | setViewport
  | goto
  | postLoadWait
  | consentEval
  | clickCount
  | clickWaitFor
  | initialStateEval
  | clickAttempt (n : Nat)
  | retryWait (n : Nat)
  | newPageLoadState
  | settleRace
  | selWaitFor
  | scrollIntoView
  | hideEval
  | elemShot
  | elemOptimize
  | restoreEval
  | catchCount
  | fullShot
  | fullOptimize
  | upload
  deriving DecidableEq, Repr

/-- The rejection reasons that can reach the outer catch of lines 447-461. -/
inductive JsError where
  | timeoutError
  | targetClosed
  | syntaxError
  | clickFailed
  | elementNotFound
  | captureFailed
  | genericError
  deriving DecidableEq, Repr

/-- The `name` property of each rejection reason.  Playwright raises
`TimeoutError` on expired waits and `TargetClosedError` on operations against
a browser closed by the deadline timer; every error constructed by the route
itself (`new Error(...)`) is a plain `Error`.  The `AbortController` created
at line 86 is never attached to any awaited operation, so no rejection named
`"AbortError"` is ever produced by the handler. -/
def JsError.name : JsError → String
  | timeoutError => "TimeoutError"
  | targetClosed => "TargetClosedError"
  | syntaxError => "SyntaxError"
  | clickFailed => "Error"
  | elementNotFound => "Error"
  | captureFailed => "Error"
  | genericError => "Error"

/-- Observable side effects of the handler, in occurrence order. -/
inductive Event where
  | browserLaunch
  | pageCreated
  | navigated
  | consentRemoval
  | clickAttempted (n : Nat) (force : Bool)
  | hidElems
  | elementShot
  | fullPageShot
  | restoredElems
  | timerClose
  | finallyClose
  | uploaded (key : String)
  deriving DecidableEq, Repr

/-- Effect trace threaded through the handler: the event log, whether the
deadline timer has closed the browser, the id set of the loaded page, the
elements currently hidden by the isolation script, and whether the
`screenshot` variable of line 274 is non-null. -/
structure Trace where
  events : List Event := []
  browserClosed : Bool := false
  dom : List String := []
  hidden : List Nat := []
  hasScreenshot : Bool := false
  deriving DecidableEq, Repr

/-- Parsed request body (destructuring at lines 123-131; `waitTimeout`
defaults to 10000). -/
structure CaptureRequest where
  url : Option String := none
  selector : Option String := none
  clickSelector : Option String := none
  filename : Option String := none
  viewportWidth : Option Nat := none
  viewportHeight : Option Nat := none
  waitTimeout : Nat := 10000
  deriving DecidableEq, Repr

/-- JavaScript truthiness of an optional string (`!url`, `filename ? _ : _`,
...): absent and empty strings are falsy. -/
def truthy : Option String → Bool
  | none => false
  | some s => !s.isEmpty

/-- Oracle for everything outside the handler: which environment variables
are set, how each awaited operation resolves, during which operation (if any)
the 120 s deadline timer fires, the element counts the two `locator.count()`
calls observe, whether the click opened a new page, the id set of the loaded
document, its element tree (element, parentElement) with the element matched
by `selector`, and the string `uuidv4()` returns. -/
structure World where
  envSet : String → Bool
  outcome : Op → OpOutcome
  deadlineOp : Option Op := none
  clickCountPos : Bool := false
  newPageOpened : Bool := false
  catchCountPos : Bool := false
  domIds : List String := []
  isoDom : List (Nat × Option Nat) := []
  isoTarget : Nat := 0
  uuid : String := ""

/-- Array `requiredEnvVars` (lines 100-105). -/
def requiredEnvVars : List String :=
  ["AWS_REGION", "AWS_ACCESS_KEY_ID", "AWS_SECRET_ACCESS_KEY", "S3_BUCKET_NAME"]

/-- Expression `requiredEnvVars.filter((varName) => !process.env[varName])` (line 106). -/
def missingEnvVars (envSet : String → Bool) : List String :=
  requiredEnvVars.filter (fun v => !envSet v)

/-- Handler computations: they thread the effect trace and may reject. -/
def M (α : Type) : Type := Trace → Trace × Except JsError α

instance : Monad M where
  pure a := fun t => (t, Except.ok a)
  bind x f := fun t =>
    match x t with
    | (t1, Except.ok a) => f a t1
    | (t1, Except.error e) => (t1, Except.error e)

def emit (e : Event) : M Unit := fun t =>
  ({ t with events := t.events ++ [e] }, Except.ok ())

def throwJs {α : Type} (e : JsError) : M α := fun t => (t, Except.error e)

def getTrace : M Trace := fun t => (t, Except.ok t)

def setDom (d : List String) : M Unit := fun t => ({ t with dom := d }, Except.ok ())

def mapDom (f : List String → List String) : M Unit := fun t =>
  ({ t with dom := f t.dom }, Except.ok ())

def setHidden (h : List Nat) : M Unit := fun t => ({ t with hidden := h }, Except.ok ())

def setHasScreenshot : M Unit := fun t => ({ t with hasScreenshot := true }, Except.ok ())

/-- An awaited browser/page operation while `browser` is non-null.  If the
deadline timer fires during the operation, the timer callback (lines 90-96)
closes the browser and the pending operation rejects; an operation on an
already-closed browser rejects likewise; otherwise the oracle decides. -/
def pageOp (w : World) (op : Op) (onFail : JsError) : M Unit := fun t =>
  if t.browserClosed then (t, Except.error JsError.targetClosed)
  else if w.deadlineOp = some op then
    ({ t with browserClosed := true, events := t.events ++ [Event.timerClose] },
      Except.error JsError.targetClosed)
  else
    match w.outcome op with
    | OpOutcome.ok => (t, Except.ok ())
    | OpOutcome.fails => (t, Except.error onFail)

/-- An awaited operation while `browser` is still null (`request.json()`,
`chromium.launch`): the timer callback finds `browser` falsy and closes
nothing, so the operation is unaffected by the deadline. -/
def preOp (w : World) (op : Op) (onFail : JsError) : M Unit := fun t =>
  match w.outcome op with
  | OpOutcome.ok => (t, Except.ok ())
  | OpOutcome.fails => (t, Except.error onFail)

/-- Call `s3Client.send` (line 429) is not a browser operation: the timer firing
during the upload closes the browser but does not disturb the send. -/
def uploadOp (w : World) : M Unit := fun t =>
  let t1 :=
    if !t.browserClosed && (w.deadlineOp == some Op.upload) then
      { t with browserClosed := true, events := t.events ++ [Event.timerClose] }
    else t
  match w.outcome Op.upload with
  | OpOutcome.ok => (t1, Except.ok ())
  | OpOutcome.fails => (t1, Except.error JsError.genericError)

/-- Expression `Promise.race([...]).catch(() => log(...))` (lines 247-267): every
rejection of the settling race, timeouts included, is swallowed. -/
def raceSettle (w : World) : M Unit := fun t =>
  if t.browserClosed then (t, Except.ok ())
  else if w.deadlineOp = some Op.settleRace then
    ({ t with browserClosed := true, events := t.events ++ [Event.timerClose] },
      Except.ok ())
  else (t, Except.ok ())

/-- One iteration of the click retry loop (lines 213-227):
`clickLocator.click({ timeout: 5000, force: attempt === 3 })` inside
`try { ... } catch (err) { log }` — a rejection (the deadline firing
included) only makes the attempt count as failed. -/
def clickOnce (w : World) (n : Nat) : M Bool := fun t =>
  let t1 := { t with events := t.events ++ [Event.clickAttempted n (n == 3)] }
  if t1.browserClosed then (t1, Except.ok false)
  else if w.deadlineOp = some (Op.clickAttempt n) then
    ({ t1 with browserClosed := true, events := t1.events ++ [Event.timerClose] },
      Except.ok false)
  else
    match w.outcome (Op.clickAttempt n) with
    | OpOutcome.ok => (t1, Except.ok true)
    | OpOutcome.fails => (t1, Except.ok false)

/-- The click retry loop (lines 212-231): up to three attempts, a
1000 ms wait after a failed attempt 1 or 2, and
`throw new Error("Failed to click element after 3 attempts")` when all three
fail. -/
def clickLoop (w : World) : M Unit := do
  let r1 ← clickOnce w 1
  if r1 then pure () else do
    pageOp w (Op.retryWait 1) JsError.genericError
    let r2 ← clickOnce w 2
    if r2 then pure () else do
      pageOp w (Op.retryWait 2) JsError.genericError
      let r3 ← clickOnce w 3
      if r3 then pure () else throwJs JsError.clickFailed

/-- The page script at lines 182-187: look up the element with id
`"onetrust-consent-sdk"` and, when present, remove it. -/
def removeConsent (dom : List String) : List String :=
  if "onetrust-consent-sdk" ∈ dom then dom.erase "onetrust-consent-sdk" else dom

/-- Lookup of `parentElement` in the flat page representation: the page is a
list of `(element, parentElement)` pairs. -/
def parentOf (dom : List (Nat × Option Nat)) (e : Nat) : Option Nat :=
  match dom.find? (fun p => p.fst == e) with
  | some p => p.snd
  | none => none

/-- Function `getParents` (lines 294-302): walk `parentElement` links upward.  The
fuel, instantiated with the number of elements, covers every acyclic page. -/
def parentChain (dom : List (Nat × Option Nat)) : Nat → Nat → List Nat
  | 0, _ => []
  | fuel + 1, e =>
    match parentOf dom e with
    | some p => p :: parentChain dom fuel p
    | none => []

/-- Membership in `getChildren` of the target (lines 305-320): in the flat
representation, the elements whose ancestor chain passes through the
target. -/
def isDescendant (dom : List (Nat × Option Nat)) (target e : Nat) : Bool :=
  (parentChain dom dom.length e).contains target

/-- The hide script (lines 289-337): when `querySelector` resolves the
target, every element that is neither the target nor one of its parents nor
one of its children gets `style.visibility = "hidden"`; the result is the
list of elements hidden.  When the target does not resolve the script
returns without hiding anything. -/
def hideSet (dom : List (Nat × Option Nat)) (target : Nat) : List Nat :=
  if dom.any (fun p => p.fst == target) then
    (dom.map Prod.fst).filter (fun e =>
      (e != target) && !((parentChain dom dom.length target).contains e) &&
        !(isDescendant dom target e))
  else []

/-- Line 411: `filename ? `${filename}.png` : `${uuidv4()}.png`". -/
def s3Filename : Option String → String → String
  | some f, fresh => if f.isEmpty then fresh ++ ".png" else f ++ ".png"
  | none, fresh => fresh ++ ".png"

/-- Modelled from the spec: the `uuid` package's `v4()` generator is external
to this repository.  Spec section 3 describes its output as "a freshly
generated unique identifier"; it is modelled as an injective fresh-name
supply indexed by the generation sequence number. -/
def uuidv4 (n : Nat) : String := String.mk (List.replicate (n + 1) 'u')

/-- The values the outer try can produce without throwing: the success body
(lines 438-441), the missing-configuration response (lines 115-121) and the
missing-url response (lines 144-147). -/
inductive Outcome where
  | success (key : String)
  | missingEnv
  | missingUrl
  deriving DecidableEq, Repr

structure HttpResponse where
  status : Nat
  success : Bool
  deriving DecidableEq, Repr

def Outcome.toResponse : Outcome → HttpResponse
  | success _ => { status := 200, success := true }
  | missingEnv => { status := 500, success := false }
  | missingUrl => { status := 400, success := false }

/-- The catch at lines 447-461: 408 for a rejection named `"AbortError"`,
500 otherwise. -/
def catchResponse (e : JsError) : HttpResponse :=
  if e.name = "AbortError" then { status := 408, success := false }
  else { status := 500, success := false }

def tryFinallyTr {α : Type} (x : M α) (cleanup : Trace → Trace) : M α := fun t =>
  match x t with
  | (t1, r) => (cleanup t1, r)

def tryCatchJs {α : Type} (x : M α) (handle : JsError → M α) : M α := fun t =>
  match x t with
  | (t1, Except.ok a) => (t1, Except.ok a)
  | (t1, Except.error e) => handle e t1

/-- Lines 190-271: the click-interaction block. -/
def clickStage (w : World) (req : CaptureRequest) : M Unit :=
  if truthy req.clickSelector then do
    pageOp w Op.clickCount JsError.genericError
    if w.clickCountPos then do
      pageOp w Op.clickWaitFor JsError.timeoutError
      pageOp w Op.initialStateEval JsError.genericError
      clickLoop w
      if w.newPageOpened then pageOp w Op.newPageLoadState JsError.timeoutError
      else pure ()
      raceSettle w
    else pure ()
  else pure ()

/-- Lines 278-369: the try block of the selector capture — wait for
visibility, scroll, hide, element screenshot, optimize (which sets the
`screenshot` variable), then restore visibility. -/
def selectorTryBlock (w : World) : M Unit := do
  pageOp w Op.selWaitFor JsError.timeoutError
  pageOp w Op.scrollIntoView JsError.genericError
  pageOp w Op.hideEval JsError.genericError
  setHidden (hideSet w.isoDom w.isoTarget)
  emit Event.hidElems
  pageOp w Op.elemShot JsError.genericError
  emit Event.elementShot
  pageOp w Op.elemOptimize JsError.genericError
  setHasScreenshot
  pageOp w Op.restoreEval JsError.genericError
  setHidden []
  emit Event.restoredElems

/-- Lines 370-384: the catch of the selector capture — when
`locator.count() > 0` only a log is written (the `screenshot` variable stays
null), otherwise `Element not found on the page` is thrown. -/
def selectorCatchBlock (w : World) : M Unit := do
  pageOp w Op.catchCount JsError.genericError
  if w.catchCountPos then pure () else throwJs JsError.elementNotFound

/-- Lines 275-408: element capture when `selector` is given, full-page
capture otherwise. -/
def captureStage (w : World) (req : CaptureRequest) : M Unit :=
  if truthy req.selector then
    tryCatchJs (selectorTryBlock w) (fun _ => selectorCatchBlock w)
  else do
    pageOp w Op.fullShot JsError.genericError
    emit Event.fullPageShot
    pageOp w Op.fullOptimize JsError.genericError
    setHasScreenshot

/-- Lines 189-441 of the inner try body: everything after the
consent-overlay removal — click interaction, capture, key derivation, the
null-screenshot check, upload, and the success response. -/
def afterConsent (w : World) (req : CaptureRequest) : M Outcome := do
  clickStage w req
  captureStage w req
  let key := s3Filename req.filename w.uuid
  let t ← getTrace
  if t.hasScreenshot then pure () else throwJs JsError.captureFailed
  uploadOp w
  emit (Event.uploaded key)
  pure (Outcome.success key)

/-- Lines 160-441: the inner try body, from `setViewportSize` to the success
response. -/
def innerTryBody (w : World) (req : CaptureRequest) : M Outcome := do
  pageOp w Op.setViewport JsError.genericError
  pageOp w Op.goto JsError.timeoutError
  setDom w.domIds
  emit Event.navigated
  if req.waitTimeout > 0 then pageOp w Op.postLoadWait JsError.genericError
  else pure ()
  pageOp w Op.consentEval JsError.genericError
  mapDom removeConsent
  emit Event.consentRemoval
  afterConsent w req

/-- Lines 98-446: the outer try body — environment validation, body parsing,
url validation, browser launch, page creation, then the inner try with its
finally (`clearTimeout(timeout); await browser?.close()`). -/
def runBody (w : World) (req : CaptureRequest) : M Outcome := do
  if missingEnvVars w.envSet ≠ [] then pure Outcome.missingEnv
  else do
    preOp w Op.parseBody JsError.syntaxError
    if truthy req.url then do
      preOp w Op.launch JsError.genericError
      emit Event.browserLaunch
      pageOp w Op.newPage JsError.genericError
      emit Event.pageCreated
      tryFinallyTr (innerTryBody w req)
        (fun t => { t with events := t.events ++ [Event.finallyClose] })
    else pure Outcome.missingUrl

/-- The whole `POST` handler of part_004, lines 83-463 (one dispatched queue
task): run the outer try body from the empty trace and classify rejections in
the catch. -/
def POST (w : World) (req : CaptureRequest) : Trace × HttpResponse :=
  match runBody w req {} with
  | (t, Except.ok o) => (t, o.toResponse)
  | (t, Except.error e) => (t, catchResponse e)

end Part004


/-! ## Running the handler: evaluation lemmas for the `M` monad -/

namespace Part004

theorem bind_run {α β : Type} (x : M α) (f : α → M β) (t : Trace) :
    (x >>= f) t =
      match x t with
      | (t1, Except.ok a) => f a t1
      | (t1, Except.error e) => (t1, Except.error e) := rfl

theorem pure_run {α : Type} (a : α) (t : Trace) :
    (pure a : M α) t = (t, Except.ok a) := rfl

theorem ite_run {α : Type} (c : Prop) [Decidable c] (x y : M α) (t : Trace) :
    (if c then x else y) t = if c then x t else y t := by
  split <;> rfl

theorem jsError_name_ne_abort (e : JsError) : e.name ≠ "AbortError" := by
  cases e <;> decide

theorem POST_trace (w : World) (req : CaptureRequest) :
    (POST w req).1 = (runBody w req {}).1 := by
  unfold POST
  rcases runBody w req {} with ⟨t, r⟩
  cases r <;> rfl

end Part004

/-! ## Claim theorems about the part_004 handler -/

/-- A world in which every operation resolves, all configuration is present,
and the 120 s deadline timer fires while `page.goto` is in flight. -/
def deadlineNavWorld : Part004.World :=
  { envSet := fun _ => true, outcome := fun _ => Part004.OpOutcome.ok,
    deadlineOp := some Part004.Op.goto }

/-- A well-formed request body carrying only `url`. -/
def plainRequest : Part004.CaptureRequest := { url := some "https://example.com" }

/-- Claim C3, code bug. The deadline timer does force-terminate the task (it
closes the browser, and the hanging `goto` rejects), but the caller receives
HTTP 500, never 408: the rejection produced by the closed browser is a
`TargetClosedError`, and the handler's catch answers 408 only to a rejection
named `"AbortError"`, which no operation can produce because the
`AbortController` signal is never attached to anything.  First conjunct: the
concrete deadline-exceeding run yields 500 with the browser closed by the
timer.  Second conjunct: no run of the handler whatsoever returns 408. -/
theorem deadline_returns_500_never_408 :
    ((Part004.POST deadlineNavWorld plainRequest).2.status = 500 ∧
     Part004.Event.timerClose ∈ (Part004.POST deadlineNavWorld plainRequest).1.events ∧
     (Part004.POST deadlineNavWorld plainRequest).2.status ≠ 408) ∧
    (∀ (w : Part004.World) (req : Part004.CaptureRequest),
      (Part004.POST w req).2.status ≠ 408) := by
  constructor
  · refine ⟨by decide, by decide, by decide⟩
  · intro w req
    unfold Part004.POST
    rcases hr : Part004.runBody w req {} with ⟨t, r⟩
    cases r with
    | ok o =>
        cases o <;> simp [Part004.Outcome.toResponse]
    | error e =>
        simp [Part004.catchResponse, Part004.jsError_name_ne_abort e]

/-- Claim C9. For every request whose (well-formed) body lacks a truthy `url`,
in a deployment with complete configuration, the handler answers HTTP 400
and performs no effect at all before returning — in particular no browser
launch. -/
theorem missing_url_400_no_browser (w : Part004.World) (req : Part004.CaptureRequest)
    (henv : Part004.missingEnvVars w.envSet = [])
    (hparse : w.outcome Part004.Op.parseBody = Part004.OpOutcome.ok)
    (hurl : Part004.truthy req.url = false) :
    (Part004.POST w req).2.status = 400 ∧
    Part004.Event.browserLaunch ∉ (Part004.POST w req).1.events ∧
    (Part004.POST w req).1.events = [] := by
  unfold Part004.POST Part004.runBody
  simp [henv, hurl, Part004.bind_run, Part004.pure_run, Part004.ite_run,
    Part004.preOp, hparse, Part004.Outcome.toResponse]

/-- Witness for `missing_url_400_no_browser` at a concrete world and
request. -/
theorem missing_url_400_no_browser_witness :
    (Part004.POST { envSet := fun _ => true, outcome := fun _ => Part004.OpOutcome.ok }
        { url := none }).2.status = 400 := by
  exact (missing_url_400_no_browser
    { envSet := fun _ => true, outcome := fun _ => Part004.OpOutcome.ok }
    { url := none } (by decide) rfl rfl).1

theorem uuidv4_inj {m n : Nat} (h : Part004.uuidv4 m = Part004.uuidv4 n) : m = n := by
  have hlen := congrArg String.length h
  simpa [Part004.uuidv4, String.length] using hlen

/-- Claim C8. The storage key is `filename + ".png"` when a (truthy) `filename`
is given — `"report"` yields `"report.png"` — and a freshly generated
identifier suffixed `.png` otherwise; two requests drawing distinct fresh
identifiers never produce the same key.  The last conjunct grounds the
derivation in the handler: a full-page success run uploads under exactly
`s3Filename filename uuid`. -/
theorem storage_key_derivation :
    (∀ u : String, Part004.s3Filename (some "report") u = "report.png") ∧
    (∀ n : Nat,
      Part004.s3Filename none (Part004.uuidv4 n) = Part004.uuidv4 n ++ ".png") ∧
    (∀ m n : Nat, m ≠ n →
      Part004.s3Filename none (Part004.uuidv4 m) ≠
        Part004.s3Filename none (Part004.uuidv4 n)) ∧
    (∀ (w : Part004.World) (req : Part004.CaptureRequest),
      Part004.missingEnvVars w.envSet = [] →
      w.outcome Part004.Op.parseBody = Part004.OpOutcome.ok →
      Part004.truthy req.url = true →
      w.outcome Part004.Op.launch = Part004.OpOutcome.ok →
      w.outcome Part004.Op.newPage = Part004.OpOutcome.ok →
      w.outcome Part004.Op.setViewport = Part004.OpOutcome.ok →
      w.outcome Part004.Op.goto = Part004.OpOutcome.ok →
      w.outcome Part004.Op.postLoadWait = Part004.OpOutcome.ok →
      w.outcome Part004.Op.consentEval = Part004.OpOutcome.ok →
      w.deadlineOp = none →
      Part004.truthy req.clickSelector = false →
      Part004.truthy req.selector = false →
      w.outcome Part004.Op.fullShot = Part004.OpOutcome.ok →
      w.outcome Part004.Op.fullOptimize = Part004.OpOutcome.ok →
      w.outcome Part004.Op.upload = Part004.OpOutcome.ok →
      (Part004.runBody w req {}).2 =
        Except.ok (Part004.Outcome.success
          (Part004.s3Filename req.filename w.uuid)) ∧
      Part004.Event.uploaded (Part004.s3Filename req.filename w.uuid) ∈
        (Part004.POST w req).1.events) := by
  refine ⟨?_, ?_, ?_, ?_⟩
  · intro u
    have h : Part004.s3Filename (some "report") u = "report" ++ ".png" := by
      simp only [Part004.s3Filename]
      rw [if_neg (by decide)]
    rw [h]
    decide
  · intro n
    rfl
  · intro m n hmn heq
    apply hmn
    apply uuidv4_inj
    have hlen := congrArg String.length heq
    simp only [Part004.s3Filename, String.length_append] at hlen
    have : (Part004.uuidv4 m).length = (Part004.uuidv4 n).length := by omega
    simp only [Part004.uuidv4, String.length] at this ⊢
    simp only [List.length_replicate] at this
    omega
  · intro w req henv hparse hurl hlaunch hnew hsetvp hgoto hpostload hconsent hd
      hclick hsel hfull hopt hup
    by_cases hw : req.waitTimeout > 0 <;>
      simp [Part004.POST, Part004.runBody, Part004.innerTryBody,
        Part004.afterConsent, Part004.clickStage, Part004.captureStage,
        Part004.selectorTryBlock, Part004.selectorCatchBlock,
        Part004.tryFinallyTr, Part004.tryCatchJs, Part004.bind_run,
        Part004.ite_run, Part004.pure_run, Part004.pageOp, Part004.preOp,
        Part004.uploadOp, Part004.raceSettle, Part004.emit, Part004.setDom,
        Part004.mapDom, Part004.setHidden, Part004.setHasScreenshot,
        Part004.getTrace, Part004.throwJs, Part004.Outcome.toResponse, henv,
        hparse, hurl, hlaunch, hnew, hsetvp, hgoto, hpostload, hconsent, hd,
        hclick, hsel, hfull, hopt, hup, hw]

/-- Witness for `storage_key_derivation`: keys of two consecutive
no-`filename` requests differ. -/
theorem storage_key_derivation_witness :
    Part004.s3Filename none (Part004.uuidv4 0) ≠
      Part004.s3Filename none (Part004.uuidv4 1) :=
  storage_key_derivation.2.2.1 0 1 (by decide)


/-! ## Structural invariants of the handler

`CloseInv` accounts for close invocations: inside the try bodies the only
close so far is the timer's (at most one, recorded by `browserClosed`), and
the guaranteed-cleanup close has not yet run.  `Tail` states that a
computation only appends to the event log and preserves `CloseInv`;
`KeepsDom` that it leaves the page id set alone. -/

namespace Part004

def CloseInv (w : World) (t : Trace) : Prop :=
  t.events.count Event.timerClose = (if t.browserClosed then 1 else 0) ∧
  t.events.count Event.finallyClose = 0 ∧
  (w.deadlineOp = none → t.browserClosed = false)

def Tail (w : World) {α : Type} (x : M α) : Prop :=
  ∀ t, (∃ l, ((x t).1).events = t.events ++ l) ∧
    (CloseInv w t → CloseInv w ((x t).1))

def KeepsDom {α : Type} (x : M α) : Prop :=
  ∀ t, ((x t).1).dom = t.dom

theorem count_append_single (l : List Event) (a b : Event) (h : a ≠ b) :
    (l ++ [a]).count b = l.count b := by
  rw [List.count_append]
  have h0 : List.count b [a] = 0 := by
    rw [List.count_eq_zero]
    simp [Ne.symm h]
  omega

theorem count_append_single_self (l : List Event) (a : Event) :
    (l ++ [a]).count a = l.count a + 1 := by
  rw [List.count_append]
  simp

theorem tail_bind {w : World} {α β : Type} {x : M α} {f : α → M β}
    (hx : Tail w x) (hf : ∀ a, Tail w (f a)) : Tail w (x >>= f) := by
  intro t
  rcases hx0 : x t with ⟨t1, r⟩
  have hx1 := hx t
  rw [hx0] at hx1
  obtain ⟨⟨l1, hl1⟩, hc1⟩ := hx1
  cases r with
  | ok a =>
      have heq : (x >>= f) t = f a t1 := by rw [bind_run, hx0]
      have hf1 := hf a t1
      obtain ⟨⟨l2, hl2⟩, hc2⟩ := hf1
      constructor
      · refine ⟨l1 ++ l2, ?_⟩
        rw [heq, hl2, hl1, List.append_assoc]
      · intro ht
        rw [heq]
        exact hc2 (hc1 ht)
  | error e =>
      have heq : (x >>= f) t = (t1, Except.error e) := by rw [bind_run, hx0]
      constructor
      · refine ⟨l1, ?_⟩
        rw [heq]
        exact hl1
      · intro ht
        rw [heq]
        exact hc1 ht

theorem tail_ite {w : World} {α : Type} {c : Prop} [Decidable c] {x y : M α}
    (hx : Tail w x) (hy : Tail w y) : Tail w (if c then x else y) := by
  intro t
  split
  · exact hx t
  · exact hy t

theorem tail_pure {w : World} {α : Type} (a : α) : Tail w (pure a : M α) := by
  intro t
  exact ⟨⟨[], by simp [pure_run]⟩, fun ht => ht⟩

theorem tail_throwJs {w : World} {α : Type} (e : JsError) :
    Tail w (throwJs e : M α) := by
  intro t
  exact ⟨⟨[], by simp [throwJs]⟩, fun ht => ht⟩

theorem tail_getTrace {w : World} : Tail w getTrace := by
  intro t
  exact ⟨⟨[], by simp [getTrace]⟩, fun ht => ht⟩

theorem tail_emit {w : World} (e : Event) (h1 : e ≠ Event.timerClose)
    (h2 : e ≠ Event.finallyClose) : Tail w (emit e) := by
  intro t
  refine ⟨⟨[e], rfl⟩, ?_⟩
  rintro ⟨htc, hfc, hcl⟩
  exact ⟨by simpa [emit, count_append_single _ _ _ h1] using htc,
    by simpa [emit, count_append_single _ _ _ h2] using hfc, hcl⟩

theorem tail_emit_uploaded {w : World} (k : String) :
    Tail w (emit (Event.uploaded k)) :=
  tail_emit _ (by simp) (by simp)

theorem tail_setDom {w : World} (d : List String) : Tail w (setDom d) := by
  intro t
  exact ⟨⟨[], by simp [setDom]⟩, fun ht => ht⟩

theorem tail_mapDom {w : World} (f : List String → List String) :
    Tail w (mapDom f) := by
  intro t
  exact ⟨⟨[], by simp [mapDom]⟩, fun ht => ht⟩

theorem tail_setHidden {w : World} (h : List Nat) : Tail w (setHidden h) := by
  intro t
  exact ⟨⟨[], by simp [setHidden]⟩, fun ht => ht⟩

theorem tail_setHasScreenshot {w : World} : Tail w setHasScreenshot := by
  intro t
  exact ⟨⟨[], by simp [setHasScreenshot]⟩, fun ht => ht⟩

theorem closeInv_timerFire {w : World} {t : Trace}
    (hb : t.browserClosed = false) (ht : CloseInv w t) (hd : w.deadlineOp ≠ none) :
    CloseInv w { t with browserClosed := true,
                        events := t.events ++ [Event.timerClose] } := by
  obtain ⟨htc, hfc, _⟩ := ht
  refine ⟨?_, ?_, ?_⟩
  · rw [count_append_single_self]
    simp only [htc, hb]
    simp
  · simpa [count_append_single _ _ _ (by decide : Event.timerClose ≠ Event.finallyClose)]
      using hfc
  · intro h0
    exact absurd h0 hd

theorem tail_pageOp {w : World} (op : Op) (onFail : JsError) :
    Tail w (pageOp w op onFail) := by
  intro t
  unfold pageOp
  split
  · exact ⟨⟨[], by simp⟩, fun ht => ht⟩
  · rename_i hb
    split
    · rename_i hd
      refine ⟨⟨[Event.timerClose], rfl⟩, ?_⟩
      intro ht
      exact closeInv_timerFire (by simpa using hb) ht (by simp [hd])
    · cases w.outcome op with
      | ok => exact ⟨⟨[], by simp⟩, fun ht => ht⟩
      | fails => exact ⟨⟨[], by simp⟩, fun ht => ht⟩

theorem tail_preOp {w : World} (op : Op) (onFail : JsError) :
    Tail w (preOp w op onFail) := by
  intro t
  unfold preOp
  cases w.outcome op with
  | ok => exact ⟨⟨[], by simp⟩, fun ht => ht⟩
  | fails => exact ⟨⟨[], by simp⟩, fun ht => ht⟩

theorem tail_uploadOp {w : World} : Tail w (uploadOp w) := by
  intro t
  unfold uploadOp
  by_cases hcond : (!t.browserClosed && (w.deadlineOp == some Op.upload)) = true
  · rw [if_pos hcond]
    have hb : t.browserClosed = false := by
      rcases Bool.and_eq_true .. |>.mp hcond with ⟨h1, _⟩
      simpa using h1
    have hd : w.deadlineOp = some Op.upload := by
      rcases Bool.and_eq_true .. |>.mp hcond with ⟨_, h2⟩
      simpa using h2
    cases w.outcome Op.upload with
    | ok =>
        refine ⟨⟨[Event.timerClose], rfl⟩, ?_⟩
        intro ht
        exact closeInv_timerFire hb ht (by simp [hd])
    | fails =>
        refine ⟨⟨[Event.timerClose], rfl⟩, ?_⟩
        intro ht
        exact closeInv_timerFire hb ht (by simp [hd])
  · rw [if_neg hcond]
    cases w.outcome Op.upload with
    | ok => exact ⟨⟨[], by simp⟩, fun ht => ht⟩
    | fails => exact ⟨⟨[], by simp⟩, fun ht => ht⟩

theorem tail_raceSettle {w : World} : Tail w (raceSettle w) := by
  intro t
  unfold raceSettle
  split
  · exact ⟨⟨[], by simp⟩, fun ht => ht⟩
  · rename_i hb
    split
    · rename_i hd
      refine ⟨⟨[Event.timerClose], rfl⟩, ?_⟩
      intro ht
      exact closeInv_timerFire (by simpa using hb) ht (by simp [hd])
    · exact ⟨⟨[], by simp⟩, fun ht => ht⟩

theorem tail_clickOnce {w : World} (n : Nat) : Tail w (clickOnce w n) := by
  intro t
  have ha1 : Event.clickAttempted n (n == 3) ≠ Event.timerClose := by simp
  have ha2 : Event.clickAttempted n (n == 3) ≠ Event.finallyClose := by simp
  by_cases hb : t.browserClosed = true
  · have heq : clickOnce w n t =
        ({ t with events := t.events ++ [Event.clickAttempted n (n == 3)] },
          Except.ok false) := by
      unfold clickOnce
      simp [hb]
    rw [heq]
    refine ⟨⟨[Event.clickAttempted n (n == 3)], rfl⟩, ?_⟩
    rintro ⟨htc, hfc, hcl⟩
    exact ⟨by simpa [count_append_single _ _ _ ha1] using htc,
      by simpa [count_append_single _ _ _ ha2] using hfc, hcl⟩
  · by_cases hd : w.deadlineOp = some (Op.clickAttempt n)
    · have heq : clickOnce w n t =
          ({ t with events := (t.events ++ [Event.clickAttempted n (n == 3)]) ++ [Event.timerClose], browserClosed := true },
            Except.ok false) := by
        unfold clickOnce
        simp [hb, hd]
      rw [heq]
      refine ⟨⟨[Event.clickAttempted n (n == 3)] ++ [Event.timerClose], by simp⟩, ?_⟩
      rintro ⟨htc, hfc, hcl⟩
      refine ⟨?_, ?_, ?_⟩
      · rw [count_append_single_self, count_append_single _ _ _ ha1]
        simp only [htc, hb]
        simp
      · rw [count_append_single _ _ _ (by decide : Event.timerClose ≠ Event.finallyClose),
          count_append_single _ _ _ ha2]
        exact hfc
      · intro h0
        rw [h0] at hd
        exact absurd hd (by simp)
    · cases ho : w.outcome (Op.clickAttempt n) with
      | ok =>
          have heq : clickOnce w n t =
              ({ t with events := t.events ++ [Event.clickAttempted n (n == 3)] },
                Except.ok true) := by
            unfold clickOnce
            simp [hb, hd, ho]
          rw [heq]
          refine ⟨⟨[Event.clickAttempted n (n == 3)], rfl⟩, ?_⟩
          rintro ⟨htc, hfc, hcl⟩
          exact ⟨by simpa [count_append_single _ _ _ ha1] using htc,
            by simpa [count_append_single _ _ _ ha2] using hfc, hcl⟩
      | fails =>
          have heq : clickOnce w n t =
              ({ t with events := t.events ++ [Event.clickAttempted n (n == 3)] },
                Except.ok false) := by
            unfold clickOnce
            simp [hb, hd, ho]
          rw [heq]
          refine ⟨⟨[Event.clickAttempted n (n == 3)], rfl⟩, ?_⟩
          rintro ⟨htc, hfc, hcl⟩
          exact ⟨by simpa [count_append_single _ _ _ ha1] using htc,
            by simpa [count_append_single _ _ _ ha2] using hfc, hcl⟩

theorem tail_tryCatchJs {w : World} {α : Type} {x : M α} {h : JsError → M α}
    (hx : Tail w x) (hh : ∀ e, Tail w (h e)) : Tail w (tryCatchJs x h) := by
  intro t
  rcases hx0 : x t with ⟨t1, r⟩
  have hx1 := hx t
  rw [hx0] at hx1
  obtain ⟨⟨l1, hl1⟩, hc1⟩ := hx1
  cases r with
  | ok a =>
      have heq : tryCatchJs x h t = (t1, Except.ok a) := by
        unfold tryCatchJs
        rw [hx0]
      rw [heq]
      exact ⟨⟨l1, hl1⟩, hc1⟩
  | error e =>
      have heq : tryCatchJs x h t = h e t1 := by
        unfold tryCatchJs
        rw [hx0]
      rw [heq]
      obtain ⟨⟨l2, hl2⟩, hc2⟩ := hh e t1
      constructor
      · refine ⟨l1 ++ l2, ?_⟩
        rw [hl2, hl1, List.append_assoc]
      · intro ht
        exact hc2 (hc1 ht)

theorem tail_clickLoop (w : World) : Tail w (clickLoop w) := by
  unfold clickLoop
  apply tail_bind (tail_clickOnce 1)
  intro r1
  apply tail_ite (tail_pure _)
  apply tail_bind (tail_pageOp _ _)
  intro u1
  apply tail_bind (tail_clickOnce 2)
  intro r2
  apply tail_ite (tail_pure _)
  apply tail_bind (tail_pageOp _ _)
  intro u2
  apply tail_bind (tail_clickOnce 3)
  intro r3
  exact tail_ite (tail_pure _) (tail_throwJs _)

theorem tail_clickStage (w : World) (req : CaptureRequest) :
    Tail w (clickStage w req) := by
  unfold clickStage
  apply tail_ite
  · apply tail_bind (tail_pageOp _ _)
    intro u1
    apply tail_ite
    · apply tail_bind (tail_pageOp _ _)
      intro u2
      apply tail_bind (tail_pageOp _ _)
      intro u3
      apply tail_bind (tail_clickLoop w)
      intro u4
      dsimp only
      apply tail_ite
      · apply tail_bind (tail_pageOp _ _)
        intro u5
        exact tail_raceSettle
      · apply tail_bind (tail_pure _)
        intro u5
        exact tail_raceSettle
    · exact tail_pure _
  · exact tail_pure _

theorem tail_selectorTryBlock (w : World) : Tail w (selectorTryBlock w) := by
  unfold selectorTryBlock
  apply tail_bind (tail_pageOp _ _)
  intro u1
  apply tail_bind (tail_pageOp _ _)
  intro u2
  apply tail_bind (tail_pageOp _ _)
  intro u3
  apply tail_bind (tail_setHidden _)
  intro u4
  apply tail_bind (tail_emit _ (by decide) (by decide))
  intro u5
  apply tail_bind (tail_pageOp _ _)
  intro u6
  apply tail_bind (tail_emit _ (by decide) (by decide))
  intro u7
  apply tail_bind (tail_pageOp _ _)
  intro u8
  apply tail_bind tail_setHasScreenshot
  intro u9
  apply tail_bind (tail_pageOp _ _)
  intro u10
  apply tail_bind (tail_setHidden _)
  intro u11
  exact tail_emit _ (by decide) (by decide)

theorem tail_selectorCatchBlock (w : World) : Tail w (selectorCatchBlock w) := by
  unfold selectorCatchBlock
  apply tail_bind (tail_pageOp _ _)
  intro u1
  exact tail_ite (tail_pure _) (tail_throwJs _)

theorem tail_captureStage (w : World) (req : CaptureRequest) :
    Tail w (captureStage w req) := by
  unfold captureStage
  apply tail_ite
  · exact tail_tryCatchJs (tail_selectorTryBlock w) (fun _ => tail_selectorCatchBlock w)
  · apply tail_bind (tail_pageOp _ _)
    intro u1
    apply tail_bind (tail_emit _ (by decide) (by decide))
    intro u2
    apply tail_bind (tail_pageOp _ _)
    intro u3
    exact tail_setHasScreenshot

theorem tail_afterConsent (w : World) (req : CaptureRequest) :
    Tail w (afterConsent w req) := by
  unfold afterConsent
  apply tail_bind (tail_clickStage w req)
  intro u1
  apply tail_bind (tail_captureStage w req)
  intro u2
  apply tail_bind tail_getTrace
  intro t0
  dsimp only
  apply tail_ite
  · apply tail_bind (tail_pure _)
    intro u3
    apply tail_bind tail_uploadOp
    intro u4
    apply tail_bind (tail_emit_uploaded _)
    intro u5
    exact tail_pure _
  · apply tail_bind (tail_throwJs _)
    intro u3
    apply tail_bind tail_uploadOp
    intro u4
    apply tail_bind (tail_emit_uploaded _)
    intro u5
    exact tail_pure _

theorem tail_innerTryBody (w : World) (req : CaptureRequest) :
    Tail w (innerTryBody w req) := by
  unfold innerTryBody
  apply tail_bind (tail_pageOp _ _)
  intro u1
  apply tail_bind (tail_pageOp _ _)
  intro u2
  apply tail_bind (tail_setDom _)
  intro u3
  apply tail_bind (tail_emit _ (by decide) (by decide))
  intro u4
  dsimp only
  apply tail_ite
  · apply tail_bind (tail_pageOp _ _)
    intro u5
    apply tail_bind (tail_pageOp _ _)
    intro u6
    apply tail_bind (tail_mapDom _)
    intro u7
    apply tail_bind (tail_emit _ (by decide) (by decide))
    intro u8
    exact tail_afterConsent w req
  · apply tail_bind (tail_pure _)
    intro u5
    apply tail_bind (tail_pageOp _ _)
    intro u6
    apply tail_bind (tail_mapDom _)
    intro u7
    apply tail_bind (tail_emit _ (by decide) (by decide))
    intro u8
    exact tail_afterConsent w req

end Part004


namespace Part004

theorem close_accounting_from (w : World) (req : CaptureRequest) (t0 : Trace)
    (h0 : CloseInv w t0) (hbl : Event.browserLaunch ∈ t0.events) :
    Event.browserLaunch ∈ ((tryFinallyTr (innerTryBody w req)
      (fun t => { t with events := t.events ++ [Event.finallyClose] }) t0).1).events ∧
    ((tryFinallyTr (innerTryBody w req)
      (fun t => { t with events := t.events ++ [Event.finallyClose] }) t0).1).events.count
        Event.finallyClose = 1 ∧
    ((tryFinallyTr (innerTryBody w req)
      (fun t => { t with events := t.events ++ [Event.finallyClose] }) t0).1).events.count
        Event.timerClose =
      (if ((tryFinallyTr (innerTryBody w req)
        (fun t => { t with events := t.events ++ [Event.finallyClose] }) t0).1).browserClosed
       then 1 else 0) ∧
    (w.deadlineOp = none →
      ((tryFinallyTr (innerTryBody w req)
        (fun t => { t with events := t.events ++ [Event.finallyClose] }) t0).1).events.count
          Event.timerClose = 0) := by
  obtain ⟨⟨l, hl⟩, hci⟩ := tail_innerTryBody w req t0
  have ht1 := hci h0
  rcases hx : innerTryBody w req t0 with ⟨t1, r⟩
  rw [hx] at hl ht1
  dsimp only at hl ht1
  obtain ⟨htc1, hfc1, hcl1⟩ := ht1
  have hres : tryFinallyTr (innerTryBody w req)
      (fun t => { t with events := t.events ++ [Event.finallyClose] }) t0 =
      ({ t1 with events := t1.events ++ [Event.finallyClose] }, r) := by
    unfold tryFinallyTr
    rw [hx]
  rw [hres]
  refine ⟨?_, ?_, ?_, ?_⟩
  · show Event.browserLaunch ∈ t1.events ++ [Event.finallyClose]
    rw [hl]
    simp [hbl]
  · show (t1.events ++ [Event.finallyClose]).count Event.finallyClose = 1
    rw [count_append_single_self, hfc1]
  · show (t1.events ++ [Event.finallyClose]).count Event.timerClose =
      (if t1.browserClosed then 1 else 0)
    rw [count_append_single _ _ _ (by decide : Event.finallyClose ≠ Event.timerClose)]
    exact htc1
  · intro h0d
    show (t1.events ++ [Event.finallyClose]).count Event.timerClose = 0
    rw [count_append_single _ _ _ (by decide : Event.finallyClose ≠ Event.timerClose),
      htc1, hcl1 h0d]
    simp

/-- Claim C4, amended. For every request in which the browser is launched and
the initial page creation succeeds, the session close is invoked before the
response is surfaced on every exit path: the guaranteed-cleanup close of the
inner finally runs exactly once, and the deadline timer contributes one
additional (idempotent) close exactly when it fired — so close is invoked
once on the success and thrown-error paths and twice on the deadline path,
and when the deadline never fires the timer contributes no close. -/
theorem session_close_accounting (w : World) (req : CaptureRequest)
    (henv : missingEnvVars w.envSet = [])
    (hparse : w.outcome Op.parseBody = OpOutcome.ok)
    (hurl : truthy req.url = true)
    (hlaunch : w.outcome Op.launch = OpOutcome.ok)
    (hnew : w.outcome Op.newPage = OpOutcome.ok)
    (hnd : w.deadlineOp ≠ some Op.newPage) :
    Event.browserLaunch ∈ (POST w req).1.events ∧
    (POST w req).1.events.count Event.finallyClose = 1 ∧
    (POST w req).1.events.count Event.timerClose =
      (if (POST w req).1.browserClosed then 1 else 0) ∧
    (w.deadlineOp = none → (POST w req).1.events.count Event.timerClose = 0) := by
  simp only [POST_trace]
  unfold runBody
  simp [henv, hparse, hurl, hlaunch, hnew, hnd, bind_run, ite_run, pure_run,
    preOp, pageOp, emit]
  exact close_accounting_from w req _ ⟨by decide, by decide, fun _ => rfl⟩ (by decide)

/-- A world in which configuration is complete, `chromium.launch` succeeds
and `browser.newPage()` rejects. -/
def newPageFailWorld : World :=
  { envSet := fun _ => true,
    outcome := fun op =>
      match op with
      | Op.newPage => OpOutcome.fails
      | _ => OpOutcome.ok }

/-- Claim C4, counterexample. A run in which the browser is launched and
`browser.newPage()` then rejects: the rejection happens before the inner try
whose finally performs the close, and the outer catch closes nothing — the
opened session is never closed at all (zero close invocations), refuting
"closed exactly once on every exit path". -/
theorem session_not_closed_on_newpage_failure :
    Event.browserLaunch ∈ (POST newPageFailWorld plainRequest).1.events ∧
    (POST newPageFailWorld plainRequest).1.events.count Event.finallyClose = 0 ∧
    (POST newPageFailWorld plainRequest).1.events.count Event.timerClose = 0 ∧
    (POST newPageFailWorld plainRequest).2.status = 500 := by
  decide

/-- Witness for `session_close_accounting` at a concrete all-resolving world
and request. -/
theorem session_close_accounting_witness :
    (POST { envSet := fun _ => true, outcome := fun _ => OpOutcome.ok }
      plainRequest).1.events.count Event.finallyClose = 1 :=
  (session_close_accounting
    { envSet := fun _ => true, outcome := fun _ => OpOutcome.ok }
    plainRequest (by decide) rfl rfl rfl rfl (by decide)).2.1

end Part004


namespace Part004

theorem keepsDom_bind {α β : Type} {x : M α} {f : α → M β}
    (hx : KeepsDom x) (hf : ∀ a, KeepsDom (f a)) : KeepsDom (x >>= f) := by
  intro t
  rcases hx0 : x t with ⟨t1, r⟩
  have h1 := hx t
  rw [hx0] at h1
  dsimp only at h1
  cases r with
  | ok a =>
      have heq : (x >>= f) t = f a t1 := by rw [bind_run, hx0]
      rw [heq, hf a t1, h1]
  | error e =>
      have heq : (x >>= f) t = (t1, Except.error e) := by rw [bind_run, hx0]
      rw [heq]
      exact h1

theorem keepsDom_ite {α : Type} {c : Prop} [Decidable c] {x y : M α}
    (hx : KeepsDom x) (hy : KeepsDom y) : KeepsDom (if c then x else y) := by
  intro t
  split
  · exact hx t
  · exact hy t

theorem keepsDom_pure {α : Type} (a : α) : KeepsDom (pure a : M α) := fun _ => rfl

theorem keepsDom_throwJs {α : Type} (e : JsError) : KeepsDom (throwJs e : M α) :=
  fun _ => rfl

theorem keepsDom_getTrace : KeepsDom getTrace := fun _ => rfl

theorem keepsDom_emit (e : Event) : KeepsDom (emit e) := fun _ => rfl

theorem keepsDom_setHidden (h : List Nat) : KeepsDom (setHidden h) := fun _ => rfl

theorem keepsDom_setHasScreenshot : KeepsDom setHasScreenshot := fun _ => rfl

theorem keepsDom_pageOp {w : World} (op : Op) (onFail : JsError) :
    KeepsDom (pageOp w op onFail) := by
  intro t
  unfold pageOp
  split
  · rfl
  · split
    · rfl
    · cases w.outcome op <;> rfl

theorem keepsDom_uploadOp {w : World} : KeepsDom (uploadOp w) := by
  intro t
  unfold uploadOp
  dsimp only
  cases w.outcome Op.upload <;>
    by_cases hc : (!t.browserClosed && (w.deadlineOp == some Op.upload)) = true <;>
      simp [hc]

theorem keepsDom_raceSettle {w : World} : KeepsDom (raceSettle w) := by
  intro t
  unfold raceSettle
  split
  · rfl
  · split
    · rfl
    · rfl

theorem keepsDom_clickOnce {w : World} (n : Nat) : KeepsDom (clickOnce w n) := by
  intro t
  unfold clickOnce
  dsimp only
  split
  · rfl
  · split
    · rfl
    · cases w.outcome (Op.clickAttempt n) <;> rfl

theorem keepsDom_tryCatchJs {α : Type} {x : M α} {h : JsError → M α}
    (hx : KeepsDom x) (hh : ∀ e, KeepsDom (h e)) : KeepsDom (tryCatchJs x h) := by
  intro t
  rcases hx0 : x t with ⟨t1, r⟩
  have h1 := hx t
  rw [hx0] at h1
  dsimp only at h1
  cases r with
  | ok a =>
      have heq : tryCatchJs x h t = (t1, Except.ok a) := by
        unfold tryCatchJs
        rw [hx0]
      rw [heq]
      exact h1
  | error e =>
      have heq : tryCatchJs x h t = h e t1 := by
        unfold tryCatchJs
        rw [hx0]
      rw [heq, hh e t1, h1]

theorem keepsDom_clickLoop (w : World) : KeepsDom (clickLoop w) := by
  unfold clickLoop
  apply keepsDom_bind (keepsDom_clickOnce 1)
  intro r1
  apply keepsDom_ite (keepsDom_pure _)
  apply keepsDom_bind (keepsDom_pageOp _ _)
  intro u1
  apply keepsDom_bind (keepsDom_clickOnce 2)
  intro r2
  apply keepsDom_ite (keepsDom_pure _)
  apply keepsDom_bind (keepsDom_pageOp _ _)
  intro u2
  apply keepsDom_bind (keepsDom_clickOnce 3)
  intro r3
  exact keepsDom_ite (keepsDom_pure _) (keepsDom_throwJs _)

theorem keepsDom_clickStage (w : World) (req : CaptureRequest) :
    KeepsDom (clickStage w req) := by
  unfold clickStage
  apply keepsDom_ite
  · apply keepsDom_bind (keepsDom_pageOp _ _)
    intro u1
    apply keepsDom_ite
    · apply keepsDom_bind (keepsDom_pageOp _ _)
      intro u2
      apply keepsDom_bind (keepsDom_pageOp _ _)
      intro u3
      apply keepsDom_bind (keepsDom_clickLoop w)
      intro u4
      dsimp only
      apply keepsDom_ite
      · apply keepsDom_bind (keepsDom_pageOp _ _)
        intro u5
        exact keepsDom_raceSettle
      · apply keepsDom_bind (keepsDom_pure _)
        intro u5
        exact keepsDom_raceSettle
    · exact keepsDom_pure _
  · exact keepsDom_pure _

theorem keepsDom_selectorTryBlock (w : World) : KeepsDom (selectorTryBlock w) := by
  unfold selectorTryBlock
  apply keepsDom_bind (keepsDom_pageOp _ _)
  intro u1
  apply keepsDom_bind (keepsDom_pageOp _ _)
  intro u2
  apply keepsDom_bind (keepsDom_pageOp _ _)
  intro u3
  apply keepsDom_bind (keepsDom_setHidden _)
  intro u4
  apply keepsDom_bind (keepsDom_emit _)
  intro u5
  apply keepsDom_bind (keepsDom_pageOp _ _)
  intro u6
  apply keepsDom_bind (keepsDom_emit _)
  intro u7
  apply keepsDom_bind (keepsDom_pageOp _ _)
  intro u8
  apply keepsDom_bind keepsDom_setHasScreenshot
  intro u9
  apply keepsDom_bind (keepsDom_pageOp _ _)
  intro u10
  apply keepsDom_bind (keepsDom_setHidden _)
  intro u11
  exact keepsDom_emit _

theorem keepsDom_selectorCatchBlock (w : World) : KeepsDom (selectorCatchBlock w) := by
  unfold selectorCatchBlock
  apply keepsDom_bind (keepsDom_pageOp _ _)
  intro u1
  exact keepsDom_ite (keepsDom_pure _) (keepsDom_throwJs _)

theorem keepsDom_captureStage (w : World) (req : CaptureRequest) :
    KeepsDom (captureStage w req) := by
  unfold captureStage
  apply keepsDom_ite
  · exact keepsDom_tryCatchJs (keepsDom_selectorTryBlock w)
      (fun _ => keepsDom_selectorCatchBlock w)
  · apply keepsDom_bind (keepsDom_pageOp _ _)
    intro u1
    apply keepsDom_bind (keepsDom_emit _)
    intro u2
    apply keepsDom_bind (keepsDom_pageOp _ _)
    intro u3
    exact keepsDom_setHasScreenshot

theorem keepsDom_afterConsent (w : World) (req : CaptureRequest) :
    KeepsDom (afterConsent w req) := by
  unfold afterConsent
  apply keepsDom_bind (keepsDom_clickStage w req)
  intro u1
  apply keepsDom_bind (keepsDom_captureStage w req)
  intro u2
  apply keepsDom_bind keepsDom_getTrace
  intro t0
  dsimp only
  apply keepsDom_ite
  · apply keepsDom_bind (keepsDom_pure _)
    intro u3
    apply keepsDom_bind keepsDom_uploadOp
    intro u4
    apply keepsDom_bind (keepsDom_emit _)
    intro u5
    exact keepsDom_pure _
  · apply keepsDom_bind (keepsDom_throwJs _)
    intro u3
    apply keepsDom_bind keepsDom_uploadOp
    intro u4
    apply keepsDom_bind (keepsDom_emit _)
    intro u5
    exact keepsDom_pure _

theorem removeConsent_not_mem (dom : List String) (h : dom.Nodup) :
    "onetrust-consent-sdk" ∉ removeConsent dom := by
  unfold removeConsent
  split
  · intro hmem
    rw [List.Nodup.mem_erase_iff h] at hmem
    exact hmem.1 rfl
  · rename_i hno
    exact hno

end Part004


namespace Part004

theorem consent_from (w : World) (req : CaptureRequest) (t0 : Trace)
    (hsetvp : w.outcome Op.setViewport = OpOutcome.ok)
    (hgoto : w.outcome Op.goto = OpOutcome.ok)
    (hpostload : w.outcome Op.postLoadWait = OpOutcome.ok)
    (hconsent : w.outcome Op.consentEval = OpOutcome.ok)
    (hd : w.deadlineOp = none)
    (hb : t0.browserClosed = false) :
    ∃ rest : List Event,
      ((tryFinallyTr (innerTryBody w req)
        (fun t => { t with events := t.events ++ [Event.finallyClose] }) t0).1).events =
        (t0.events ++ [Event.navigated, Event.consentRemoval]) ++ rest ∧
      ((tryFinallyTr (innerTryBody w req)
        (fun t => { t with events := t.events ++ [Event.finallyClose] }) t0).1).dom =
        removeConsent w.domIds := by
  have hinner : innerTryBody w req t0 =
      afterConsent w req
        { t0 with events := t0.events ++ [Event.navigated, Event.consentRemoval],
                  dom := removeConsent w.domIds } := by
    unfold innerTryBody
    by_cases hw : req.waitTimeout > 0 <;>
      simp [hw, hsetvp, hgoto, hpostload, hconsent, hd, hb, bind_run, ite_run,
        pure_run, pageOp, setDom, mapDom, emit]
  rcases hx : afterConsent w req
      { t0 with events := t0.events ++ [Event.navigated, Event.consentRemoval],
                dom := removeConsent w.domIds } with ⟨t5, r⟩
  obtain ⟨⟨l, hl⟩, _⟩ := tail_afterConsent w req
    { t0 with events := t0.events ++ [Event.navigated, Event.consentRemoval],
              dom := removeConsent w.domIds }
  have hdom := keepsDom_afterConsent w req
    { t0 with events := t0.events ++ [Event.navigated, Event.consentRemoval],
              dom := removeConsent w.domIds }
  rw [hx] at hl hdom
  dsimp only at hl hdom
  have hres : tryFinallyTr (innerTryBody w req)
      (fun t => { t with events := t.events ++ [Event.finallyClose] }) t0 =
      ({ t5 with events := t5.events ++ [Event.finallyClose] }, r) := by
    unfold tryFinallyTr
    rw [hinner, hx]
  rw [hres]
  refine ⟨l ++ [Event.finallyClose], ?_, ?_⟩
  · show t5.events ++ [Event.finallyClose] =
      (t0.events ++ [Event.navigated, Event.consentRemoval]) ++ (l ++ [Event.finallyClose])
    rw [hl]
    simp
  · show t5.dom = removeConsent w.domIds
    rw [hdom]

/-- Claim C10. For every request processed by the part_004 handler whose run
reaches the post-navigation point (navigation, post-load wait and the
consent-removal script all resolve, and the deadline does not intervene),
the page script removes the DOM element with id `"onetrust-consent-sdk"`
when present — the event log decomposes into the fixed launch/navigate/
consent-removal sequence followed by everything else, so the removal happens
before any click attempt or capture, and the page id set the later stages
observe no longer contains the consent overlay. -/
theorem consent_overlay_removed (w : Part004.World) (req : Part004.CaptureRequest)
    (henv : Part004.missingEnvVars w.envSet = [])
    (hparse : w.outcome Part004.Op.parseBody = Part004.OpOutcome.ok)
    (hurl : Part004.truthy req.url = true)
    (hlaunch : w.outcome Part004.Op.launch = Part004.OpOutcome.ok)
    (hnew : w.outcome Part004.Op.newPage = Part004.OpOutcome.ok)
    (hsetvp : w.outcome Part004.Op.setViewport = Part004.OpOutcome.ok)
    (hgoto : w.outcome Part004.Op.goto = Part004.OpOutcome.ok)
    (hpostload : w.outcome Part004.Op.postLoadWait = Part004.OpOutcome.ok)
    (hconsent : w.outcome Part004.Op.consentEval = Part004.OpOutcome.ok)
    (hd : w.deadlineOp = none)
    (hnodup : w.domIds.Nodup) :
    ∃ rest : List Part004.Event,
      (Part004.POST w req).1.events =
        [Part004.Event.browserLaunch, Part004.Event.pageCreated,
         Part004.Event.navigated, Part004.Event.consentRemoval] ++ rest ∧
      (Part004.POST w req).1.dom = Part004.removeConsent w.domIds ∧
      "onetrust-consent-sdk" ∉ (Part004.POST w req).1.dom := by
  have hred : runBody w req {} =
      tryFinallyTr (innerTryBody w req)
        (fun t => { t with events := t.events ++ [Event.finallyClose] })
        { events := [Event.browserLaunch, Event.pageCreated] } := by
    unfold runBody
    simp [henv, hparse, hurl, hlaunch, hnew, hd, bind_run, ite_run, pure_run,
      preOp, pageOp, emit]
  obtain ⟨rest, h1, h2⟩ := consent_from w req
    { events := [Event.browserLaunch, Event.pageCreated] }
    hsetvp hgoto hpostload hconsent hd rfl
  refine ⟨rest, ?_, ?_, ?_⟩
  · rw [POST_trace, hred, h1]
    simp
  · rw [POST_trace, hred]
    exact h2
  · rw [POST_trace, hred, h2]
    exact removeConsent_not_mem w.domIds hnodup

/-- Witness for `consent_overlay_removed` at a concrete world whose page
contains the consent overlay. -/
theorem consent_overlay_removed_witness :
    ∃ rest : List Part004.Event,
      (Part004.POST
        { envSet := fun _ => true, outcome := fun _ => Part004.OpOutcome.ok,
          domIds := ["onetrust-consent-sdk", "main"] } plainRequest).1.events =
        [Part004.Event.browserLaunch, Part004.Event.pageCreated,
         Part004.Event.navigated, Part004.Event.consentRemoval] ++ rest ∧
      (Part004.POST
        { envSet := fun _ => true, outcome := fun _ => Part004.OpOutcome.ok,
          domIds := ["onetrust-consent-sdk", "main"] } plainRequest).1.dom =
        Part004.removeConsent ["onetrust-consent-sdk", "main"] ∧
      "onetrust-consent-sdk" ∉ (Part004.POST
        { envSet := fun _ => true, outcome := fun _ => Part004.OpOutcome.ok,
          domIds := ["onetrust-consent-sdk", "main"] } plainRequest).1.dom :=
  consent_overlay_removed
    { envSet := fun _ => true, outcome := fun _ => Part004.OpOutcome.ok,
      domIds := ["onetrust-consent-sdk", "main"] }
    plainRequest (by decide) rfl rfl rfl rfl rfl rfl rfl rfl rfl (by decide)

end Part004


/-! ## The selector-capture block of src/unnamed/part_003 (puppeteer variant) -/

namespace Part003

/-- Oracle for one run of the part_003 selector-capture block (lines
203-301): resolution of the visibility wait, the scroll and hide scripts,
whether `pageToScreenshot.$(selector)` finds the element, the element
screenshot, the restore script, and the full-page screenshot taken in the
catch. -/
structure World3 where
  selWaitFor : Part004.OpOutcome
  scrollEval : Part004.OpOutcome
  hideEval : Part004.OpOutcome
  elemFound : Bool
  elemShot : Part004.OpOutcome
  restoreEval : Part004.OpOutcome
  fullShot : Part004.OpOutcome
  deriving DecidableEq, Repr

/-- What the block produced: an element screenshot or a full-page one. -/
inductive Shot where
  | element
  | fullPage
  deriving DecidableEq, Repr

/-- Lines 204-287: the try block — wait for visibility, scroll into view,
hide the non-ancestor/non-descendant elements, look the element handle up
(`throw` when it is gone), capture it, restore visibility. -/
def tryBlock (w : World3) : Except Part004.JsError Shot :=
  match w.selWaitFor with
  | Part004.OpOutcome.fails => Except.error Part004.JsError.timeoutError
  | Part004.OpOutcome.ok =>
    match w.scrollEval with
    | Part004.OpOutcome.fails => Except.error Part004.JsError.genericError
    | Part004.OpOutcome.ok =>
      match w.hideEval with
      | Part004.OpOutcome.fails => Except.error Part004.JsError.genericError
      | Part004.OpOutcome.ok =>
        if !w.elemFound then Except.error Part004.JsError.elementNotFound
        else
          match w.elemShot with
          | Part004.OpOutcome.fails => Except.error Part004.JsError.genericError
          | Part004.OpOutcome.ok =>
            match w.restoreEval with
            | Part004.OpOutcome.fails => Except.error Part004.JsError.genericError
            | Part004.OpOutcome.ok => Except.ok Shot.element

/-- Lines 203-301: the try block plus its catch (lines 288-294), which logs
the error and takes a full-page screenshot of the same page. -/
def selectorCapture (w : World3) : Except Part004.JsError Shot :=
  match tryBlock w with
  | Except.ok s => Except.ok s
  | Except.error _ =>
    match w.fullShot with
    | Part004.OpOutcome.ok => Except.ok Shot.fullPage
    | Part004.OpOutcome.fails => Except.error Part004.JsError.genericError

end Part003

/-- A request carrying `url` and `selector`. -/
def selRequest : Part004.CaptureRequest :=
  { url := some "https://example.com", selector := some "#target" }

/-- A part_004 world in which everything resolves except the `selector`
visibility wait, and the element count probed in the catch is zero. -/
def selNotFoundWorld : Part004.World :=
  { envSet := fun _ => true,
    outcome := fun op =>
      match op with
      | Part004.Op.selWaitFor => Part004.OpOutcome.fails
      | _ => Part004.OpOutcome.ok }

/-- Claim C5, counterexample. In part_004 a `selector` whose element cannot be
located does not degrade to a full-page screenshot: the request fails with
HTTP 500 and no full-page capture is taken. -/
theorem selector_failure_fails_request :
    (Part004.POST selNotFoundWorld selRequest).2.status = 500 ∧
    (Part004.POST selNotFoundWorld selRequest).2.success = false ∧
    Part004.Event.fullPageShot ∉ (Part004.POST selNotFoundWorld selRequest).1.events := by
  decide

namespace Part004

/-- Claim C5, amended. The fallback exists only in the puppeteer variant
(part_003): there, whenever the full-page capture itself succeeds, the
selector block always produces a screenshot — the element one, or the
full-page fallback on any error.  In the playwright variant (part_004) a
`selector` whose visibility wait fails never falls back: whether the element
exists (`screenshot` stays null, later raising `Failed to capture
screenshot`) or not (`Element not found` is thrown), the request fails with
HTTP 500 and no full-page capture is taken. -/
theorem selector_failure_behavior_by_variant :
    (∀ w3 : Part003.World3, w3.fullShot = OpOutcome.ok →
      Part003.selectorCapture w3 = Except.ok Part003.Shot.element ∨
      Part003.selectorCapture w3 = Except.ok Part003.Shot.fullPage) ∧
    (∀ (w : World) (req : CaptureRequest),
      missingEnvVars w.envSet = [] →
      w.outcome Op.parseBody = OpOutcome.ok →
      truthy req.url = true →
      w.outcome Op.launch = OpOutcome.ok →
      w.outcome Op.newPage = OpOutcome.ok →
      w.outcome Op.setViewport = OpOutcome.ok →
      w.outcome Op.goto = OpOutcome.ok →
      w.outcome Op.postLoadWait = OpOutcome.ok →
      w.outcome Op.consentEval = OpOutcome.ok →
      w.deadlineOp = none →
      truthy req.clickSelector = false →
      truthy req.selector = true →
      w.outcome Op.selWaitFor = OpOutcome.fails →
      w.outcome Op.catchCount = OpOutcome.ok →
      (POST w req).2.status = 500 ∧
      (POST w req).2.success = false ∧
      Event.fullPageShot ∉ (POST w req).1.events) := by
  constructor
  · intro w3 hfs
    unfold Part003.selectorCapture
    cases h : Part003.tryBlock w3 with
    | ok s =>
        cases s with
        | element =>
            left
            simp
        | fullPage =>
            right
            simp
    | error e =>
        right
        rw [hfs]
  · intro w req henv hparse hurl hlaunch hnew hsetvp hgoto hpostload hconsent hd
      hclick hsel hselwait hcatchcount
    by_cases hcp : w.catchCountPos = true <;>
      by_cases hw : req.waitTimeout > 0 <;>
        simp [POST, runBody, innerTryBody, afterConsent, clickStage, captureStage,
          selectorTryBlock, selectorCatchBlock, tryFinallyTr, tryCatchJs, bind_run,
          ite_run, pure_run, pageOp, preOp, uploadOp, raceSettle, emit, setDom,
          mapDom, setHidden, setHasScreenshot, getTrace, throwJs, catchResponse,
          JsError.name, Outcome.toResponse, henv, hparse, hurl, hlaunch, hnew,
          hsetvp, hgoto, hpostload, hconsent, hd, hclick, hsel, hselwait,
          hcatchcount, hcp, hw]

/-- Witness for `selector_failure_behavior_by_variant`: a part_003 run whose
visibility wait fails but whose full-page capture succeeds produces a
screenshot. -/
theorem selector_failure_behavior_by_variant_witness :
    Part003.selectorCapture
      { selWaitFor := OpOutcome.fails, scrollEval := OpOutcome.ok,
        hideEval := OpOutcome.ok, elemFound := true, elemShot := OpOutcome.ok,
        restoreEval := OpOutcome.ok, fullShot := OpOutcome.ok } =
      Except.ok Part003.Shot.element ∨
    Part003.selectorCapture
      { selWaitFor := OpOutcome.fails, scrollEval := OpOutcome.ok,
        hideEval := OpOutcome.ok, elemFound := true, elemShot := OpOutcome.ok,
        restoreEval := OpOutcome.ok, fullShot := OpOutcome.ok } =
      Except.ok Part003.Shot.fullPage :=
  selector_failure_behavior_by_variant.1
    { selWaitFor := OpOutcome.fails, scrollEval := OpOutcome.ok,
      hideEval := OpOutcome.ok, elemFound := true, elemShot := OpOutcome.ok,
      restoreEval := OpOutcome.ok, fullShot := OpOutcome.ok } rfl

end Part004


/-- A three-element page: root `0` with children `1` (the capture target)
and `2` (its sibling). -/
def isoPageDom : List (Nat × Option Nat) := [(0, none), (1, some 0), (2, some 0)]

/-- A part_004 world in which everything resolves except the element
screenshot, the catch-probed count being positive, against `isoPageDom`. -/
def elemShotFailWorld : Part004.World :=
  { envSet := fun _ => true,
    outcome := fun op =>
      match op with
      | Part004.Op.elemShot => Part004.OpOutcome.fails
      | _ => Part004.OpOutcome.ok,
    catchCountPos := true, isoDom := isoPageDom, isoTarget := 1 }

/-- Claim C7, counterexample. When the element screenshot raises after the
hide script ran, the restore script — which sits after the capture inside
the same try — never runs: the sibling element `2` is still hidden when the
handler answers, refuting "no element remains hidden after the capture
step". -/
theorem element_left_hidden_on_capture_failure :
    (Part004.POST elemShotFailWorld selRequest).1.hidden = [2] ∧
    Part004.Event.hidElems ∈ (Part004.POST elemShotFailWorld selRequest).1.events ∧
    Part004.Event.restoredElems ∉ (Part004.POST elemShotFailWorld selRequest).1.events ∧
    (Part004.POST elemShotFailWorld selRequest).2.status = 500 := by
  decide

namespace Part004

/-- Claim C7, amended. The isolator's restore script runs only when the
element screenshot and its optimization succeed: on that success path every
hidden element is made visible again (no element remains hidden), but when
the capture raises after the hide script, the restore never runs and the
page keeps exactly the isolator's hide set. -/
theorem isolation_restore_accounting (w : World) (req : CaptureRequest)
    (henv : missingEnvVars w.envSet = [])
    (hparse : w.outcome Op.parseBody = OpOutcome.ok)
    (hurl : truthy req.url = true)
    (hlaunch : w.outcome Op.launch = OpOutcome.ok)
    (hnew : w.outcome Op.newPage = OpOutcome.ok)
    (hsetvp : w.outcome Op.setViewport = OpOutcome.ok)
    (hgoto : w.outcome Op.goto = OpOutcome.ok)
    (hpostload : w.outcome Op.postLoadWait = OpOutcome.ok)
    (hconsent : w.outcome Op.consentEval = OpOutcome.ok)
    (hd : w.deadlineOp = none)
    (hclick : truthy req.clickSelector = false)
    (hsel : truthy req.selector = true)
    (hselwait : w.outcome Op.selWaitFor = OpOutcome.ok)
    (hscroll : w.outcome Op.scrollIntoView = OpOutcome.ok)
    (hhide : w.outcome Op.hideEval = OpOutcome.ok) :
    (w.outcome Op.elemShot = OpOutcome.ok →
     w.outcome Op.elemOptimize = OpOutcome.ok →
     w.outcome Op.restoreEval = OpOutcome.ok →
      (POST w req).1.hidden = [] ∧
      Event.restoredElems ∈ (POST w req).1.events) ∧
    (w.outcome Op.elemShot = OpOutcome.fails →
     w.outcome Op.catchCount = OpOutcome.ok →
      (POST w req).1.hidden = hideSet w.isoDom w.isoTarget ∧
      Event.restoredElems ∉ (POST w req).1.events ∧
      (POST w req).2.status = 500) := by
  constructor
  · intro hshot hopt hrestore
    rcases hu : w.outcome Op.upload with _ | _ <;>
      by_cases hw : req.waitTimeout > 0 <;>
        simp [POST, runBody, innerTryBody, afterConsent, clickStage, captureStage,
          selectorTryBlock, selectorCatchBlock, tryFinallyTr, tryCatchJs, bind_run,
          ite_run, pure_run, pageOp, preOp, uploadOp, raceSettle, emit, setDom,
          mapDom, setHidden, setHasScreenshot, getTrace, throwJs, catchResponse,
          JsError.name, Outcome.toResponse, henv, hparse, hurl, hlaunch, hnew,
          hsetvp, hgoto, hpostload, hconsent, hd, hclick, hsel, hselwait, hscroll,
          hhide, hshot, hopt, hrestore, hu, hw]
  · intro hshot hcatchcount
    by_cases hcp : w.catchCountPos = true <;>
      by_cases hw : req.waitTimeout > 0 <;>
        simp [POST, runBody, innerTryBody, afterConsent, clickStage, captureStage,
          selectorTryBlock, selectorCatchBlock, tryFinallyTr, tryCatchJs, bind_run,
          ite_run, pure_run, pageOp, preOp, uploadOp, raceSettle, emit, setDom,
          mapDom, setHidden, setHasScreenshot, getTrace, throwJs, catchResponse,
          JsError.name, Outcome.toResponse, henv, hparse, hurl, hlaunch, hnew,
          hsetvp, hgoto, hpostload, hconsent, hd, hclick, hsel, hselwait, hscroll,
          hhide, hshot, hcatchcount, hcp, hw]

end Part004

/-- A part_004 world over `isoPageDom` in which every operation resolves. -/
def isoOkWorld : Part004.World :=
  { envSet := fun _ => true, outcome := fun _ => Part004.OpOutcome.ok,
    isoDom := isoPageDom, isoTarget := 1 }

/-- Witness for `Part004.isolation_restore_accounting`: on the all-success
run no element remains hidden. -/
theorem isolation_restore_accounting_witness :
    (Part004.POST isoOkWorld selRequest).1.hidden = [] :=
  ((Part004.isolation_restore_accounting isoOkWorld selRequest (by decide) rfl rfl
    rfl rfl rfl rfl rfl rfl rfl rfl rfl rfl rfl rfl).1 rfl rfl rfl).1


namespace Part004

/-- Claim C6. The click-interaction protocol of part_004.  (1) When the click
target exists, is visible, and the deadline does not intervene, the retry
loop makes at most three attempts — stopping at the first success — with the
third and only the third attempt forced, and it raises the `ClickFailed`
error exactly when all three attempts fail.  (2) A click target that never
appears (`count() = 0`) is a no-op: the click stage leaves the trace
untouched and processing continues.  (3) End to end, a request whose three
click attempts all fail is rejected with the `ClickFailed` error and
answered with HTTP 500. -/
theorem click_retry_protocol :
    (∀ (w : World) (t : Trace),
      w.deadlineOp = none → t.browserClosed = false →
      w.outcome (Op.retryWait 1) = OpOutcome.ok →
      w.outcome (Op.retryWait 2) = OpOutcome.ok →
      ((w.outcome (Op.clickAttempt 1) = OpOutcome.ok →
          clickLoop w t =
            ({ t with events := t.events ++ [Event.clickAttempted 1 false] },
              Except.ok ())) ∧
       (w.outcome (Op.clickAttempt 1) = OpOutcome.fails →
        w.outcome (Op.clickAttempt 2) = OpOutcome.ok →
          clickLoop w t =
            ({ t with events := t.events ++
                [Event.clickAttempted 1 false, Event.clickAttempted 2 false] },
              Except.ok ())) ∧
       (w.outcome (Op.clickAttempt 1) = OpOutcome.fails →
        w.outcome (Op.clickAttempt 2) = OpOutcome.fails →
        w.outcome (Op.clickAttempt 3) = OpOutcome.ok →
          clickLoop w t =
            ({ t with events := t.events ++
                [Event.clickAttempted 1 false, Event.clickAttempted 2 false,
                 Event.clickAttempted 3 true] },
              Except.ok ())) ∧
       ((clickLoop w t).2 = Except.error JsError.clickFailed ↔
          w.outcome (Op.clickAttempt 1) = OpOutcome.fails ∧
          w.outcome (Op.clickAttempt 2) = OpOutcome.fails ∧
          w.outcome (Op.clickAttempt 3) = OpOutcome.fails))) ∧
    (∀ (w : World) (req : CaptureRequest) (t : Trace),
      truthy req.clickSelector = true → t.browserClosed = false →
      w.deadlineOp = none → w.outcome Op.clickCount = OpOutcome.ok →
      w.clickCountPos = false →
      clickStage w req t = (t, Except.ok ())) ∧
    (∀ (w : World) (req : CaptureRequest),
      missingEnvVars w.envSet = [] →
      w.outcome Op.parseBody = OpOutcome.ok →
      truthy req.url = true →
      w.outcome Op.launch = OpOutcome.ok →
      w.outcome Op.newPage = OpOutcome.ok →
      w.outcome Op.setViewport = OpOutcome.ok →
      w.outcome Op.goto = OpOutcome.ok →
      w.outcome Op.postLoadWait = OpOutcome.ok →
      w.outcome Op.consentEval = OpOutcome.ok →
      w.deadlineOp = none →
      truthy req.clickSelector = true →
      w.outcome Op.clickCount = OpOutcome.ok →
      w.clickCountPos = true →
      w.outcome Op.clickWaitFor = OpOutcome.ok →
      w.outcome Op.initialStateEval = OpOutcome.ok →
      w.outcome (Op.retryWait 1) = OpOutcome.ok →
      w.outcome (Op.retryWait 2) = OpOutcome.ok →
      w.outcome (Op.clickAttempt 1) = OpOutcome.fails →
      w.outcome (Op.clickAttempt 2) = OpOutcome.fails →
      w.outcome (Op.clickAttempt 3) = OpOutcome.fails →
      (runBody w req {}).2 = Except.error JsError.clickFailed ∧
      (POST w req).2.status = 500) := by
  refine ⟨?_, ?_, ?_⟩
  · intro w t hd hb hr1 hr2
    refine ⟨?_, ?_, ?_, ?_⟩
    · intro h1
      simp [clickLoop, clickOnce, pageOp, bind_run, ite_run, pure_run, throwJs,
        hd, hb, hr1, hr2, h1]
    · intro h1 h2
      simp [clickLoop, clickOnce, pageOp, bind_run, ite_run, pure_run, throwJs,
        hd, hb, hr1, hr2, h1, h2]
    · intro h1 h2 h3
      simp [clickLoop, clickOnce, pageOp, bind_run, ite_run, pure_run, throwJs,
        hd, hb, hr1, hr2, h1, h2, h3]
    · rcases h1 : w.outcome (Op.clickAttempt 1) with _ | _ <;>
        rcases h2 : w.outcome (Op.clickAttempt 2) with _ | _ <;>
          rcases h3 : w.outcome (Op.clickAttempt 3) with _ | _ <;>
            simp [clickLoop, clickOnce, pageOp, bind_run, ite_run, pure_run,
              throwJs, hd, hb, hr1, hr2, h1, h2, h3]
  · intro w req t hclick hb hd hcount hcp
    simp [clickStage, bind_run, ite_run, pure_run, pageOp, hclick, hb, hd,
      hcount, hcp]
  · intro w req henv hparse hurl hlaunch hnew hsetvp hgoto hpostload hconsent hd
      hclick hcount hcp hwaitfor hinit hr1 hr2 h1 h2 h3
    by_cases hw : req.waitTimeout > 0 <;>
      by_cases hnp : w.newPageOpened = true <;>
        simp [POST, runBody, innerTryBody, afterConsent, clickStage, clickLoop,
          clickOnce, captureStage, selectorTryBlock, selectorCatchBlock,
          tryFinallyTr, tryCatchJs, bind_run, ite_run, pure_run, pageOp, preOp,
          uploadOp, raceSettle, emit, setDom, mapDom, setHidden,
          setHasScreenshot, getTrace, throwJs, catchResponse, JsError.name,
          Outcome.toResponse, henv, hparse, hurl, hlaunch, hnew, hsetvp, hgoto,
          hpostload, hconsent, hd, hclick, hcount, hcp, hwaitfor, hinit, hr1,
          hr2, h1, h2, h3, hw, hnp]

end Part004

/-- A part_004 world in which every operation resolves. -/
def allOkWorld : Part004.World :=
  { envSet := fun _ => true, outcome := fun _ => Part004.OpOutcome.ok }

/-- Witness for `Part004.click_retry_protocol`: with a first attempt that
succeeds, the loop clicks exactly once, unforced. -/
theorem click_retry_protocol_witness :
    Part004.clickLoop allOkWorld {} =
      (({ events := [Part004.Event.clickAttempted 1 false] } : Part004.Trace),
        Except.ok ()) :=
  (Part004.click_retry_protocol.1 allOkWorld {} rfl rfl rfl rfl).1 rfl


end ScreenshotApi
